import Mathlib

/-!
# surrealdb-datasource: `pkg/client/client.go`

A shallow embedding of the `client` package and proofs about it.

* `Client.Connect` (lines 39-59) is straight-line code over the driver
  interface `SurrealDBClient`; it is embedded by explicit state passing over
  the driver's state.
* `Client.QueryWithContext` (lines 62-83) starts a goroutine and blocks in a
  `select`; it is embedded as a labelled transition system whose events are
  the scheduling points of the two goroutines and of the context.

Go values: an `interface{}` is `Option V` (`none` is `nil`), an `error` is
`Option E` (`none` is `nil`).
-/

namespace Client

/-! ## Data model -/

/-- SurrealConfig, lines 10-17. -/
structure SurrealConfig where
  Database : String
  Endpoint : String
  Namespace : String
  Password : String
  Scope : String
  Username : String
  deriving DecidableEq, Repr

/-- The driver library's `surrealdb.Auth`, restricted to the two fields that the
composite literal at lines 40-43 sets; every other field keeps its zero value. -/
structure Auth where
  Username : String
  Password : String
  deriving DecidableEq, Repr

/-- A `map[string]interface{}`, as the list of its bindings. -/
abbrev Vars (V : Type) := List (String × Option V)

/-- SurrealDBClient, lines 20-26: the driver interface, over a driver state `σ`.
`Query` is a blocking call that the deadline wrapper exists for: `none` is a
call that never returns. The other methods are modelled as returning. -/
structure SurrealDBClient (σ V E : Type) where
  Close : σ → σ
  Create : String → Option V → σ → (Option V × Option E) × σ
  Query : String → Vars V → σ → Option ((Option V × Option E) × σ)
  Signin : Auth → σ → (Option V × Option E) × σ
  Use : String → String → σ → Option E × σ

/-- One call on the driver interface, with its arguments. -/
inductive Call (V : Type) where
  | Close : Call V
  | Create (thing : String) (data : Option V) : Call V
  | Query (sql : String) (vars : Vars V) : Call V
  | Signin (auth : Auth) : Call V
  | Use (ns : String) (database : String) : Call V
  deriving DecidableEq, Repr

/-- A recording driver: behaves as `d` and appends every call it receives to a log
kept beside the driver state. -/
def recording {σ V E : Type} (d : SurrealDBClient σ V E) :
    SurrealDBClient (σ × List (Call V)) V E where
  Close := fun s => (d.Close s.1, s.2 ++ [Call.Close])
  Create := fun thing data s =>
    ((d.Create thing data s.1).1, ((d.Create thing data s.1).2, s.2 ++ [Call.Create thing data]))
  Query := fun sql vars s =>
    (d.Query sql vars s.1).map (fun out => (out.1, (out.2, s.2 ++ [Call.Query sql vars])))
  Signin := fun auth s =>
    ((d.Signin auth s.1).1, ((d.Signin auth s.1).2, s.2 ++ [Call.Signin auth]))
  Use := fun ns database s =>
    ((d.Use ns database s.1).1, ((d.Use ns database s.1).2, s.2 ++ [Call.Use ns database]))

/-! ## Connect -/

/-- Connect, lines 39-59. Returns the pair `(bool, error)` and the driver state
after the calls made. -/
def Connect {σ V E : Type} (db : SurrealDBClient σ V E) (config : SurrealConfig) (s : σ) :
    (Bool × Option E) × σ :=
  let authData : Auth := { Username := config.Username, Password := config.Password }
  match db.Signin authData s with
  | ((_, some err), s1) => ((false, some err), s1)
  | ((_, none), s1) =>
    match db.Use config.Namespace config.Database s1 with
    | (some err, s2) => ((false, some err), s2)
    | (none, s2) => ((true, none), s2)

/-- The driver calls that `Connect` makes, in order: the log of a recording driver
started with an empty log. -/
def connectTrace {σ V E : Type} (db : SurrealDBClient σ V E) (config : SurrealConfig) (s : σ) :
    List (Call V) :=
  (Connect (recording db) config (s, [])).2.2

/-! ## QueryWithContext

The caller goroutine runs lines 63-66 (make the two unbuffered channels, start
the background goroutine) and then blocks in the `select` of line 75. The
background goroutine runs lines 67-72. An unbuffered send completes only
together with the matching receive, and a `select` with several ready cases
may take any of them.
-/

/-- The `context.Context` argument, as far as the wrapper observes it. -/
structure Context (E : Type) where
  /-- Whether `Done()` is already closed when the call starts. -/
  fired : Bool
  /-- The value of `Err()` once `Done()` is closed; non-nil by the contract of `context`. -/
  Err : E

/-- Program counter of the background goroutine (lines 66-73). -/
inductive Goroutine (V E : Type) where
  /-- Created by the `go` statement, body not yet running. -/
  | ready : Goroutine V E
  /-- Inside `c.db.Query(sql, vars)`, line 67. -/
  | inQuery (sql : String) (vars : Vars V) : Goroutine V E
  /-- At the send `ec <- err`, line 69. -/
  | sendEc (err : E) : Goroutine V E
  /-- At the send `rc <- r`, line 72. -/
  | sendRc (r : Option V) : Goroutine V E
  /-- Returned, after line 70 or after line 72. -/
  | exited : Goroutine V E
  deriving DecidableEq, Repr

/-- Program counter of the caller's goroutine (lines 63-82). -/
inductive Caller (V E : Type) where
  /-- Before lines 63-66. -/
  | entry : Caller V E
  /-- At the `select`, line 75. -/
  | atSelect : Caller V E
  /-- Returned `nil, ctx.Err()` at line 77; carries the value of `ctx.Err()`. -/
  | ret77 (err : E) : Caller V E
  /-- Returned `nil, err` at line 79. -/
  | ret79 (err : E) : Caller V E
  /-- Returned `result, nil` at line 81. -/
  | ret81 (result : Option V) : Caller V E
  deriving DecidableEq, Repr

/-- The pair handed back to the caller, once it has returned. -/
def Caller.outcome {V E : Type} : Caller V E → Option (Option V × Option E)
  | .entry => none
  | .atSelect => none
  | .ret77 err => some (none, some err)
  | .ret79 err => some (none, some err)
  | .ret81 result => some (result, none)

/-- The terminal states of one invocation. -/
inductive Terminal where
  | Completed : Terminal
  | Cancelled : Terminal
  deriving DecidableEq, Repr

/-- The terminal state that a caller's program counter stands for, if any. -/
def Caller.terminal {V E : Type} : Caller V E → Option Terminal
  | .entry => none
  | .atSelect => none
  | .ret77 _ => some Terminal.Cancelled
  | .ret79 _ => some Terminal.Completed
  | .ret81 _ => some Terminal.Completed

/-- State of one invocation of `QueryWithContext`. -/
structure State (σ V E : Type) where
  /-- Where the caller is. -/
  caller : Caller V E
  /-- The background goroutine, once started. -/
  bg : Option (Goroutine V E)
  /-- How many goroutines this invocation has started. -/
  started : Nat
  /-- Whether `ctx.Done()` is closed. -/
  done : Bool
  /-- The driver's state. -/
  db : σ
  /-- The driver calls made so far, in order. -/
  calls : List (Call V)

/-- The scheduling points of one invocation. -/
inductive Event where
  /-- The caller runs lines 63-66. -/
  | go : Event
  /-- The background goroutine enters `c.db.Query`, line 67. -/
  | callQuery : Event
  /-- The driver's `Query` returns and the goroutine moves to its send. -/
  | queryReturn : Event
  /-- The context's `Done()` channel is closed. -/
  | ctxFire : Event
  /-- The `select` takes `<-ctx.Done()`, lines 76-77. -/
  | selectDone : Event
  /-- The `select` takes `err := <-ec`, lines 78-79, together with the send of line 69. -/
  | selectEc : Event
  /-- The `select` takes `result := <-rc`, lines 80-81, together with the send of line 72. -/
  | selectRc : Event
  deriving DecidableEq, Repr

/-- State at the call of `QueryWithContext`. -/
def init {σ V E : Type} (ctx : Context E) (s0 : σ) : State σ V E :=
  { caller := .entry, bg := none, started := 0, done := ctx.fired, db := s0, calls := [] }

/-- One step of `QueryWithContext`: the state after event `ev`, or `none` when
`ev` cannot happen in state `s`. -/
def step {σ V E : Type} (d : SurrealDBClient σ V E) (ctx : Context E)
    (query : String) (args : Vars V) (ev : Event) (s : State σ V E) : Option (State σ V E) :=
  match ev with
  | .go =>
    match s.caller with
    | .entry => some { s with caller := .atSelect, bg := some .ready, started := s.started + 1 }
    | _ => none
  | .callQuery =>
    match s.bg with
    | some .ready =>
      some { s with bg := some (.inQuery query args), calls := s.calls ++ [Call.Query query args] }
    | _ => none
  | .queryReturn =>
    match s.bg with
    | some (.inQuery sql vars) =>
      match d.Query sql vars s.db with
      | some ((_, some err), db1) => some { s with bg := some (.sendEc err), db := db1 }
      | some ((r, none), db1) => some { s with bg := some (.sendRc r), db := db1 }
      | none => none
    | _ => none
  | .ctxFire => if s.done then none else some { s with done := true }
  | .selectDone =>
    match s.caller with
    | .atSelect => if s.done then some { s with caller := .ret77 ctx.Err } else none
    | _ => none
  | .selectEc =>
    match s.caller, s.bg with
    | .atSelect, some (.sendEc err) => some { s with caller := .ret79 err, bg := some .exited }
    | _, _ => none
  | .selectRc =>
    match s.caller, s.bg with
    | .atSelect, some (.sendRc r) => some { s with caller := .ret81 r, bg := some .exited }
    | _, _ => none

/-- A run: the events of a list, one after the other. -/
def run {σ V E : Type} (d : SurrealDBClient σ V E) (ctx : Context E)
    (query : String) (args : Vars V) : List Event → State σ V E → Option (State σ V E)
  | [], s => some s
  | ev :: evs, s => (step d ctx query args ev s).bind (run d ctx query args evs)

/-- The events of the program itself: all but the closing of `ctx.Done()`. -/
def programEvents : List Event :=
  [.go, .callQuery, .queryReturn, .selectDone, .selectEc, .selectRc]

/-- No goroutine of the invocation can take a step. -/
def quiescent {σ V E : Type} (d : SurrealDBClient σ V E) (ctx : Context E)
    (query : String) (args : Vars V) (s : State σ V E) : Bool :=
  programEvents.all (fun ev => (step d ctx query args ev s).isNone)

/-- Nothing at all can happen any more. -/
def stuck {σ V E : Type} (d : SurrealDBClient σ V E) (ctx : Context E)
    (query : String) (args : Vars V) (s : State σ V E) : Bool :=
  quiescent d ctx query args s && (step d ctx query args .ctxFire s).isNone

/-- What the caller receives of a driver answer `(r, err)` that reaches it: the
goroutine sends `err` on `ec` when it is non-nil and `r` on `rc` otherwise
(lines 68-72), and the select returns `nil, err` or `result, nil` (lines 78-81). -/
def delivered {V E : Type} (r : Option V) (err : Option E) : Option V × Option E :=
  match err with
  | some e => (none, some e)
  | none => (r, none)

/-- The background goroutine is parked on a channel send. -/
def blockedOnSend {V E : Type} : Option (Goroutine V E) → Bool
  | some (.sendEc _) => true
  | some (.sendRc _) => true
  | _ => false

/-- The driver's `Query` has not returned to the background goroutine. -/
def queryPending {V E : Type} : Option (Goroutine V E) → Bool
  | none => true
  | some .ready => true
  | some (.inQuery _ _) => true
  | _ => false

/-- Along the events `evs`, `ctx.Done()` is closed strictly before the driver's
`Query` returns (or is closed and `Query` does not return at all). -/
def firedBeforeResponse {E : Type} (ctx : Context E) (evs : List Event) : Bool :=
  ctx.fired || (evs.takeWhile (fun ev => ev != Event.queryReturn)).contains Event.ctxFire

/-- Number of events that can still happen from a state. -/
def remaining {σ V E : Type} (s : State σ V E) : Nat :=
  (match s.caller with
    | .entry => 2
    | .atSelect => 1
    | _ => 0) +
  (match s.bg with
    | none => 2
    | some .ready => 2
    | some (.inQuery _ _) => 1
    | _ => 0) +
  (if s.done then 0 else 1)

/-- What holds of every state that a run reaches from the initial state with driver
state `s0`: where the caller and the background goroutine can be relative to each
other, and what has been asked of the driver. -/
def Inv {σ V E : Type} (d : SurrealDBClient σ V E) (ctx : Context E)
    (query : String) (args : Vars V) (s0 : σ) (s : State σ V E) : Prop :=
  (match s.caller with
    | .entry => s.bg = none ∧ s.started = 0
    | .atSelect => s.started = 1 ∧ s.bg ≠ none ∧ s.bg ≠ some .exited
    | .ret77 err =>
      s.started = 1 ∧ s.bg ≠ none ∧ s.bg ≠ some .exited ∧ err = ctx.Err ∧ s.done = true
    | .ret79 err =>
      s.started = 1 ∧ s.bg = some .exited ∧
        ∃ r, d.Query query args s0 = some ((r, some err), s.db)
    | .ret81 r =>
      s.started = 1 ∧ s.bg = some .exited ∧ d.Query query args s0 = some ((r, none), s.db)) ∧
  (match s.bg with
    | none => s.calls = [] ∧ s.db = s0
    | some .ready => s.calls = [] ∧ s.db = s0
    | some (.inQuery sql vars) =>
      sql = query ∧ vars = args ∧ s.calls = [Call.Query query args] ∧ s.db = s0
    | some (.sendEc err) =>
      s.calls = [Call.Query query args] ∧
        ∃ r, d.Query query args s0 = some ((r, some err), s.db)
    | some (.sendRc r) =>
      s.calls = [Call.Query query args] ∧ d.Query query args s0 = some ((r, none), s.db)
    | some .exited => s.calls = [Call.Query query args]) ∧
  (ctx.fired = true → s.done = true)

/-! ## Concrete instances -/

/-- Errors of the concrete drivers and contexts below. -/
inductive DemoErr where
  | invalidCredentials : DemoErr
  | unknownNamespace : DemoErr
  | queryFailed : DemoErr
  | deadlineExceeded : DemoErr
  deriving DecidableEq, Repr

/-- The configuration of the spec's scenario. -/
def demoConfig : SurrealConfig :=
  { Database := "app", Endpoint := "db:8000", Namespace := "prod",
    Password := "p", Scope := "", Username := "u" }

/-- The same configuration with a scope set. -/
def scopedConfig : SurrealConfig := { demoConfig with Scope := "tenant" }

/-- A driver whose state counts the calls it has answered. `signinErr` and `useErr`
are what `Signin` and `Use` report; `resp` is what `Query` returns (`none`: never). -/
def demoDriver (signinErr useErr : Option DemoErr)
    (resp : Option (Option Nat × Option DemoErr)) : SurrealDBClient Nat Nat DemoErr where
  Close := fun n => n + 1
  Create := fun _ data n => ((data, none), n + 1)
  Query := fun _ _ n => resp.map (fun out => (out, n + 1))
  Signin := fun _ n => ((some 1, signinErr), n + 1)
  Use := fun _ _ n => (useErr, n + 1)

/-- A context that has not fired at entry and reports `deadlineExceeded`. -/
def demoCtx : Context DemoErr := { fired := false, Err := DemoErr.deadlineExceeded }

/-- A context that has already fired at entry. -/
def firedCtx : Context DemoErr := { fired := true, Err := DemoErr.deadlineExceeded }

/-- A driver whose Query answers with the result 7. -/
def answeringDriver : SurrealDBClient Nat Nat DemoErr :=
  demoDriver none none (some (some 7, none))

/-- A statement and its variables. -/
def demoQuery : String := "SELECT * FROM person WHERE id = $id"

/-- The variables bound in the statement above. -/
def demoArgs : Vars Nat := [("id", some 1)]

/-- The caller has received the driver's result; the background goroutine has exited. -/
def completedState : State Nat Nat DemoErr :=
  { caller := .ret81 (some 7), bg := some .exited, started := 1, done := false, db := 1,
    calls := [Call.Query demoQuery demoArgs] }

/-- The signal has fired, the caller is at its select and the query is in flight. -/
def waitingState : State Nat Nat DemoErr :=
  { caller := .atSelect, bg := some (.inQuery demoQuery demoArgs), started := 1, done := true,
    db := 0, calls := [Call.Query demoQuery demoArgs] }

/-- The caller has returned the cancellation; the background goroutine holds the late
result at its send on the result channel. -/
def leakedState : State Nat Nat DemoErr :=
  { caller := .ret77 DemoErr.deadlineExceeded, bg := some (.sendRc (some 7)), started := 1,
    done := true, db := 1, calls := [Call.Query demoQuery demoArgs] }

/-- The caller has returned the cancellation of a context that had fired at entry; the
driver has since been asked the query once and has answered 7. -/
def dispatchedState : State Nat Nat DemoErr :=
  { caller := .ret77 DemoErr.deadlineExceeded, bg := some (.sendRc (some 7)),
    started := 1, done := true, db := 1, calls := [Call.Query demoQuery demoArgs] }

/-- The same state over the recording driver: its log holds the one call received. -/
def recordedState : State (Nat × List (Call Nat)) Nat DemoErr :=
  { caller := .ret77 DemoErr.deadlineExceeded, bg := some (.sendRc (some 7)),
    started := 1, done := true, db := (1, [Call.Query demoQuery demoArgs]),
    calls := [Call.Query demoQuery demoArgs] }

end Client

namespace Client

/-! ## Connect: theorems -/

section ConnectTheorems

variable {σ V E : Type}

/-- The recording driver answers as the driver it wraps: same return values, same
driver state. -/
theorem recording_Connect (d : SurrealDBClient σ V E) (config : SurrealConfig) (s : σ)
    (log : List (Call V)) :
    (Connect (recording d) config (s, log)).1 = (Connect d config s).1 ∧
    (Connect (recording d) config (s, log)).2.1 = (Connect d config s).2 := by
  unfold Connect
  simp only [recording]
  rcases h1 : d.Signin { Username := config.Username, Password := config.Password } s with
    ⟨⟨r, _ | e⟩, s1⟩
  · simp only
    rcases h2 : d.Use config.Namespace config.Database s1 with ⟨_ | e2, s2⟩ <;> simp
  · simp

/-- C1: when the driver's Signin returns a non-nil error e, Connect returns (false, e)
with e unchanged, and the only driver call it makes is that Signin: Use is never
invoked. -/
theorem Connect_signin_failure (d : SurrealDBClient σ V E) (config : SurrealConfig) (s s1 : σ)
    (r : Option V) (e : E)
    (h : d.Signin { Username := config.Username, Password := config.Password } s
      = ((r, some e), s1)) :
    Connect d config s = ((false, some e), s1) ∧
    connectTrace d config s
      = [Call.Signin { Username := config.Username, Password := config.Password }] := by
  constructor
  · simp [Connect, h]
  · simp [connectTrace, Connect, recording, h]

/-- C2: Connect returns (true, nil) exactly when Signin returns no error and the Use
that follows it returns no error; otherwise it returns false with a non-nil error; the
boolean is true exactly when the error is nil. -/
theorem Connect_success_iff (d : SurrealDBClient σ V E) (config : SurrealConfig) (s : σ) :
    ((Connect d config s).1 = (true, none) ↔
      (d.Signin { Username := config.Username, Password := config.Password } s).1.2 = none ∧
      (d.Use config.Namespace config.Database
        (d.Signin { Username := config.Username, Password := config.Password } s).2).1 = none) ∧
    ((Connect d config s).1 ≠ (true, none) →
      (Connect d config s).1.1 = false ∧ (Connect d config s).1.2 ≠ none) ∧
    ((Connect d config s).1.1 = true ↔ (Connect d config s).1.2 = none) := by
  rcases h1 : d.Signin { Username := config.Username, Password := config.Password } s with
    ⟨⟨r, _ | e⟩, s1⟩
  · rcases h2 : d.Use config.Namespace config.Database s1 with ⟨_ | e2, s2⟩ <;>
      simp [Connect, h1, h2]
  · simp [Connect, h1]

/-- C8: when Signin succeeds and the driver's Use returns a non-nil error e, Connect
returns (false, e) with e unchanged, and its driver calls are exactly Signin, then
Use. -/
theorem Connect_use_failure (d : SurrealDBClient σ V E) (config : SurrealConfig) (s s1 s2 : σ)
    (r : Option V) (e : E)
    (h1 : d.Signin { Username := config.Username, Password := config.Password } s
      = ((r, none), s1))
    (h2 : d.Use config.Namespace config.Database s1 = (some e, s2)) :
    Connect d config s = ((false, some e), s2) ∧
    connectTrace d config s
      = [Call.Signin { Username := config.Username, Password := config.Password },
         Call.Use config.Namespace config.Database] := by
  constructor
  · simp [Connect, h1, h2]
  · simp [connectTrace, Connect, recording, h1, h2]

/-- C9: the driver calls of Connect are Signin, with the config's Username and
Password, followed when Signin reported no error by Use with the config's Namespace
and Database in that order, and nothing else: no Close, Create or Query. -/
theorem Connect_calls (d : SurrealDBClient σ V E) (config : SurrealConfig) (s : σ) :
    connectTrace d config s =
      (match (d.Signin { Username := config.Username, Password := config.Password } s).1.2 with
        | none =>
          [Call.Signin { Username := config.Username, Password := config.Password },
           Call.Use config.Namespace config.Database]
        | some _ =>
          [Call.Signin { Username := config.Username, Password := config.Password }]) ∧
    (connectTrace d config s).head?
      = some (Call.Signin { Username := config.Username, Password := config.Password }) ∧
    (∀ c ∈ connectTrace d config s,
      c = Call.Signin { Username := config.Username, Password := config.Password } ∨
      c = Call.Use config.Namespace config.Database) := by
  unfold connectTrace Connect
  simp only [recording]
  rcases h1 : d.Signin { Username := config.Username, Password := config.Password } s with
    ⟨⟨r, _ | e⟩, s1⟩
  · simp only
    rcases h2 : d.Use config.Namespace config.Database s1 with ⟨_ | e2, s2⟩ <;> simp
  · simp

/-- C7, as the code behaves: Connect does not read the Scope field. Whatever the
scope, its return value, the driver state it leaves and the driver calls it makes are
those of the same config with any other scope, the empty one included. -/
theorem Connect_scope_ignored (d : SurrealDBClient σ V E) (config : SurrealConfig)
    (scope : String) (s : σ) :
    Connect d { config with Scope := scope } s = Connect d config s ∧
    connectTrace d { config with Scope := scope } s = connectTrace d config s := by
  constructor <;> rfl

/-- C1 at a driver that rejects the credentials. -/
theorem Connect_signin_failure_witness :
    (demoDriver (some DemoErr.invalidCredentials) none none).Signin
        { Username := demoConfig.Username, Password := demoConfig.Password } 0
      = ((some 1, some DemoErr.invalidCredentials), 1) ∧
    (Connect (demoDriver (some DemoErr.invalidCredentials) none none) demoConfig 0
        = ((false, some DemoErr.invalidCredentials), 1) ∧
      connectTrace (demoDriver (some DemoErr.invalidCredentials) none none) demoConfig 0
        = [Call.Signin { Username := demoConfig.Username, Password := demoConfig.Password }]) :=
  ⟨rfl, Connect_signin_failure (demoDriver (some DemoErr.invalidCredentials) none none)
    demoConfig 0 1 (some 1) DemoErr.invalidCredentials rfl⟩

/-- C8 at a driver that accepts the credentials and rejects the namespace. -/
theorem Connect_use_failure_witness :
    (demoDriver none (some DemoErr.unknownNamespace) none).Signin
        { Username := demoConfig.Username, Password := demoConfig.Password } 0
      = ((some 1, none), 1) ∧
    (demoDriver none (some DemoErr.unknownNamespace) none).Use
        demoConfig.Namespace demoConfig.Database 1
      = (some DemoErr.unknownNamespace, 2) ∧
    (Connect (demoDriver none (some DemoErr.unknownNamespace) none) demoConfig 0
        = ((false, some DemoErr.unknownNamespace), 2) ∧
      connectTrace (demoDriver none (some DemoErr.unknownNamespace) none) demoConfig 0
        = [Call.Signin { Username := demoConfig.Username, Password := demoConfig.Password },
           Call.Use demoConfig.Namespace demoConfig.Database]) :=
  ⟨rfl, rfl, Connect_use_failure (demoDriver none (some DemoErr.unknownNamespace) none)
    demoConfig 0 1 2 (some 1) DemoErr.unknownNamespace rfl rfl⟩

/-- C7 fails on the code: with the scope "tenant" set, Connect returns the same pair,
leaves the same driver state and makes the same driver calls as with the empty scope;
no error is reported. -/
theorem Connect_scope_counterexample :
    scopedConfig.Scope ≠ "" ∧
    { scopedConfig with Scope := "" } = demoConfig ∧
    Connect (demoDriver none none none) scopedConfig 0
      = Connect (demoDriver none none none) demoConfig 0 ∧
    Connect (demoDriver none none none) scopedConfig 0 = ((true, none), 2) ∧
    connectTrace (demoDriver none none none) scopedConfig 0
      = connectTrace (demoDriver none none none) demoConfig 0 := by
  refine ⟨by decide, rfl, rfl, rfl, rfl⟩

end ConnectTheorems


/-! ## QueryWithContext: the invariant -/

section Machine

variable {σ V E : Type} (d : SurrealDBClient σ V E) (ctx : Context E)
  (query : String) (args : Vars V)

theorem inv_init (s0 : σ) : Inv d ctx query args s0 (init ctx s0) := by
  simp [Inv, init]

theorem inv_step (s0 : σ) (ev : Event) (s s1 : State σ V E)
    (hinv : Inv d ctx query args s0 s) (h : step d ctx query args ev s = some s1) :
    Inv d ctx query args s0 s1 := by
  obtain ⟨caller, bg, started, done, db, calls⟩ := s
  cases ev <;> cases caller <;> rcases bg with _ | (_ | _ | _ | _ | _) <;>
    simp only [step, reduceCtorEq] at h <;>
    (try split at h) <;>
    (try simp only [Option.some.injEq, reduceCtorEq] at h) <;>
    (try subst h) <;>
    simp_all [Inv]

theorem inv_run (s0 : σ) (evs : List Event) :
    ∀ s s1 : State σ V E, Inv d ctx query args s0 s → run d ctx query args evs s = some s1 →
      Inv d ctx query args s0 s1 := by
  induction evs with
  | nil =>
    intro s s1 hinv h
    simp only [run, Option.some.injEq] at h
    exact h ▸ hinv
  | cons ev evs ih =>
    intro s s1 hinv h
    simp only [run, Option.bind_eq_some] at h
    obtain ⟨s2, h1, h2⟩ := h
    exact ih s2 s1 (inv_step d ctx query args s0 ev s s2 hinv h1) h2

theorem reachable_inv (s0 : σ) (evs : List Event) (s : State σ V E)
    (h : run d ctx query args evs (init ctx s0) = some s) : Inv d ctx query args s0 s :=
  inv_run d ctx query args s0 evs _ s (inv_init d ctx query args s0) h

theorem run_append (evs evs2 : List Event) :
    ∀ s : State σ V E, run d ctx query args (evs ++ evs2) s
      = (run d ctx query args evs s).bind (run d ctx query args evs2) := by
  induction evs with
  | nil => intro s; simp [run]
  | cons ev evs ih =>
    intro s
    simp only [List.cons_append, run]
    cases step d ctx query args ev s with
    | none => simp
    | some s2 => simp [ih]

/-- Every event uses up one unit of what remains. -/
theorem step_remaining (s0 : σ) (ev : Event) (s s1 : State σ V E)
    (hinv : Inv d ctx query args s0 s) (h : step d ctx query args ev s = some s1) :
    remaining s1 + 1 = remaining s := by
  obtain ⟨caller, bg, started, done, db, calls⟩ := s
  cases ev <;> cases caller <;> rcases bg with _ | (_ | _ | _ | _ | _) <;>
    simp only [step, reduceCtorEq] at h <;>
    (try split at h) <;>
    (try simp only [Option.some.injEq, reduceCtorEq] at h) <;>
    (try subst h) <;>
    simp_all [Inv, remaining] <;>
    omega

theorem run_remaining (s0 : σ) (evs : List Event) :
    ∀ s s1 : State σ V E, Inv d ctx query args s0 s → run d ctx query args evs s = some s1 →
      remaining s1 + evs.length = remaining s := by
  induction evs with
  | nil =>
    intro s s1 _ h
    simp only [run, Option.some.injEq] at h
    simp [h]
  | cons ev evs ih =>
    intro s s1 hinv h
    simp only [run, Option.bind_eq_some] at h
    obtain ⟨s2, h1, h2⟩ := h
    have e1 := step_remaining d ctx query args s0 ev s s2 hinv h1
    have e2 := ih s2 s1 (inv_step d ctx query args s0 ev s s2 hinv h1) h2
    simp only [List.length_cons]
    omega

/-- No run of one invocation has more than five events. -/
theorem run_length_le (s0 : σ) (evs : List Event) (s : State σ V E)
    (h : run d ctx query args evs (init ctx s0) = some s) : evs.length ≤ 5 := by
  have e := run_remaining d ctx query args s0 evs _ s (inv_init d ctx query args s0) h
  have e0 : remaining (init ctx s0 : State σ V E) ≤ 5 := by
    simp only [remaining, init]
    split <;> omega
  omega

/-- Once the caller has returned, no event moves it. -/
theorem step_returned (ev : Event) (s s1 : State σ V E) (out : Option V × Option E)
    (hout : s.caller.outcome = some out) (h : step d ctx query args ev s = some s1) :
    s1.caller = s.caller := by
  obtain ⟨caller, bg, started, done, db, calls⟩ := s
  cases ev <;> cases caller <;>
    simp only [Caller.outcome, reduceCtorEq] at hout <;>
    simp only [step, reduceCtorEq] at h <;>
    (try split at h) <;>
    (try split at h) <;>
    (try simp only [Option.some.injEq, reduceCtorEq] at h) <;>
    (try subst h) <;>
    simp_all

theorem run_returned (evs : List Event) :
    ∀ (s s1 : State σ V E) (out : Option V × Option E), s.caller.outcome = some out →
      run d ctx query args evs s = some s1 → s1.caller = s.caller := by
  induction evs with
  | nil =>
    intro s s1 out _ h
    simp only [run, Option.some.injEq] at h
    simp [h]
  | cons ev evs ih =>
    intro s s1 out hout h
    simp only [run, Option.bind_eq_some] at h
    obtain ⟨s2, h1, h2⟩ := h
    have e1 := step_returned d ctx query args ev s s2 out hout h1
    have e2 := ih s2 s1 out (e1 ▸ hout) h2
    rw [e2, e1]

/-- The signal, once fired, stays fired. -/
theorem step_done (ev : Event) (s s1 : State σ V E)
    (hd : s.done = true) (h : step d ctx query args ev s = some s1) : s1.done = true := by
  obtain ⟨caller, bg, started, done, db, calls⟩ := s
  cases ev <;>
    simp only [step, reduceCtorEq] at h <;>
    (try split at h) <;>
    (try split at h) <;>
    (try simp only [Option.some.injEq, reduceCtorEq] at h) <;>
    (try subst h) <;>
    simp_all

/-- The events of the program leave the signal as it is. -/
theorem step_program_done (ev : Event) (s s1 : State σ V E) (hev : ev ∈ programEvents)
    (h : step d ctx query args ev s = some s1) : s1.done = s.done := by
  obtain ⟨caller, bg, started, done, db, calls⟩ := s
  cases ev <;>
    simp only [programEvents, List.mem_cons, List.mem_singleton, reduceCtorEq, or_false,
      or_self, List.not_mem_nil] at hev <;>
    simp only [step, reduceCtorEq] at h <;>
    (try split at h) <;>
    (try split at h) <;>
    (try simp only [Option.some.injEq, reduceCtorEq] at h) <;>
    (try subst h) <;>
    simp_all

theorem not_quiescent (s : State σ V E) (h : ¬ quiescent d ctx query args s = true) :
    ∃ ev ∈ programEvents, ∃ s1, step d ctx query args ev s = some s1 := by
  simp only [quiescent, List.all_eq_true, not_forall] at h
  obtain ⟨ev, hev, hne⟩ := h
  cases h1 : step d ctx query args ev s with
  | none => simp [h1] at hne
  | some s1 => exact ⟨ev, hev, s1, h1⟩

/-- From every reachable state the goroutines can run, without the signal firing,
until none of them can move. -/
theorem exists_quiescent (s0 : σ) (n : Nat) :
    ∀ s : State σ V E, Inv d ctx query args s0 s → remaining s ≤ n →
      ∃ evs2 s2, (∀ ev ∈ evs2, ev ∈ programEvents) ∧ run d ctx query args evs2 s = some s2 ∧
        quiescent d ctx query args s2 = true ∧ s2.done = s.done := by
  induction n with
  | zero =>
    intro s hinv hn
    by_cases hq : quiescent d ctx query args s = true
    · exact ⟨[], s, by simp, rfl, hq, rfl⟩
    · obtain ⟨ev, _, s1, h1⟩ := not_quiescent d ctx query args s hq
      have := step_remaining d ctx query args s0 ev s s1 hinv h1
      omega
  | succ n ih =>
    intro s hinv hn
    by_cases hq : quiescent d ctx query args s = true
    · exact ⟨[], s, by simp, rfl, hq, rfl⟩
    · obtain ⟨ev, hev, s1, h1⟩ := not_quiescent d ctx query args s hq
      have hrem := step_remaining d ctx query args s0 ev s s1 hinv h1
      obtain ⟨evs2, s2, hmem, hrun, hq2, hd2⟩ :=
        ih s1 (inv_step d ctx query args s0 ev s s1 hinv h1) (by omega)
      refine ⟨ev :: evs2, s2, ?_, ?_, hq2, ?_⟩
      · intro e he
        rcases List.mem_cons.mp he with rfl | he
        · exact hev
        · exact hmem e he
      · simp [run, h1, hrun]
      · rw [hd2, step_program_done d ctx query args ev s s1 hev h1]

/-- When no goroutine can move, and the signal has fired or the driver answers the
query, the caller has returned. -/
theorem quiescent_returned (s0 : σ) (s : State σ V E) (hinv : Inv d ctx query args s0 s)
    (hq : quiescent d ctx query args s = true)
    (h : s.done = true ∨ (d.Query query args s0).isSome = true) :
    s.caller.outcome.isSome = true := by
  obtain ⟨caller, bg, started, done, db, calls⟩ := s
  cases caller <;> rcases bg with _ | (_ | _ | _ | _ | _) <;>
    simp_all [Inv, quiescent, programEvents, step, Caller.outcome]
  obtain ⟨hq1, -⟩ := hq
  rcases hQ : d.Query query args s0 with _ | ⟨⟨r, _ | e⟩, db1⟩ <;> simp [hQ] at hq1 h

/-- What the caller can have received, in a reachable state. -/
theorem outcome_cases (s0 : σ) (s : State σ V E) (hinv : Inv d ctx query args s0 s)
    (out : Option V × Option E) (hout : s.caller.outcome = some out) :
    (s.caller.terminal = some Terminal.Cancelled ∧ s.done = true ∧
      out = (none, some ctx.Err)) ∨
    (s.caller.terminal = some Terminal.Completed ∧
      ∃ r e, d.Query query args s0 = some ((r, some e), s.db) ∧ out = (none, some e)) ∨
    (s.caller.terminal = some Terminal.Completed ∧
      ∃ r, d.Query query args s0 = some ((r, none), s.db) ∧ out = (r, none)) := by
  obtain ⟨caller, bg, started, done, db, calls⟩ := s
  cases caller <;> simp only [Caller.outcome, reduceCtorEq, Option.some.injEq] at hout
  · subst hout
    simp_all [Inv, Caller.terminal]
  · subst hout
    obtain ⟨⟨-, -, r, hr⟩, -⟩ := hinv
    exact Or.inr (Or.inl ⟨rfl, r, _, hr, rfl⟩)
  · subst hout
    obtain ⟨⟨-, -, hr⟩, -⟩ := hinv
    exact Or.inr (Or.inr ⟨rfl, _, hr, rfl⟩)

/-- How many goroutines a reachable state has started and what it has asked of the
driver. -/
theorem inv_dispatch (s0 : σ) (s : State σ V E) (hinv : Inv d ctx query args s0 s) :
    s.started ≤ 1 ∧
    (s.caller ≠ Caller.entry → s.started = 1 ∧ s.bg.isSome = true) ∧
    (s.calls = [] ∨ s.calls = [Call.Query query args]) := by
  obtain ⟨caller, bg, started, done, db, calls⟩ := s
  cases caller <;> rcases bg with _ | (_ | _ | _ | _ | _) <;> simp_all [Inv]

/-- When no goroutine can move, the goroutine has been started and the query made. -/
theorem quiescent_dispatched (s0 : σ) (s : State σ V E) (hinv : Inv d ctx query args s0 s)
    (hq : quiescent d ctx query args s = true) :
    s.started = 1 ∧ s.calls = [Call.Query query args] := by
  simp only [quiescent, programEvents, List.all_cons, Bool.and_eq_true,
    Option.isNone_iff_eq_none] at hq
  obtain ⟨h1, h2, -⟩ := hq
  obtain ⟨caller, bg, started, done, db, calls⟩ := s
  cases caller <;> rcases bg with _ | (_ | _ | _ | _ | _) <;>
    simp only [step, reduceCtorEq] at h1 h2 <;>
    simp_all [Inv]

/-- What a reachable state has asked of the driver: a call in flight carries the
caller's statement and variables, and the driver's state is the initial one until the
driver's Query returns and from then on the one that a single application of Query to
the caller's statement and variables in the initial state leaves. -/
theorem inv_driver (s0 : σ) (s : State σ V E) (hinv : Inv d ctx query args s0 s) :
    (∀ sql vars, s.bg = some (Goroutine.inQuery sql vars) → sql = query ∧ vars = args) ∧
    ((queryPending s.bg = true ∧ s.db = s0) ∨
      (queryPending s.bg = false ∧ ∃ out, d.Query query args s0 = some (out, s.db))) := by
  obtain ⟨caller, bg, started, done, db, calls⟩ := s
  cases caller <;> rcases bg with _ | (_ | _ | _ | _ | _) <;>
    simp_all [Inv, queryPending]
  · obtain ⟨-, ⟨-, r, hr⟩, -⟩ := hinv
    exact ⟨r, _, hr⟩
  · obtain ⟨-, ⟨-, r, hr⟩, -⟩ := hinv
    exact ⟨r, _, hr⟩
  · obtain ⟨⟨-, r, hr⟩, -⟩ := hinv
    exact ⟨r, _, hr⟩

/-- When no goroutine can move: a driver that answers has been applied, and its state
is the one that application leaves; a driver that does not answer holds the call. -/
theorem quiescent_driver (s0 : σ) (s : State σ V E) (hinv : Inv d ctx query args s0 s)
    (hq : quiescent d ctx query args s = true) :
    (∀ out db1, d.Query query args s0 = some (out, db1) →
      s.db = db1 ∧ queryPending s.bg = false) ∧
    (d.Query query args s0 = none →
      s.bg = some (Goroutine.inQuery query args) ∧ s.db = s0) := by
  simp only [quiescent, programEvents, List.all_cons, Bool.and_eq_true,
    Option.isNone_iff_eq_none] at hq
  obtain ⟨h1, h2, h3, -⟩ := hq
  obtain ⟨caller, bg, started, done, db, calls⟩ := s
  rcases hQ : d.Query query args s0 with _ | ⟨⟨r, _ | e⟩, db1⟩ <;>
    cases caller <;> rcases bg with _ | (_ | _ | _ | _ | _) <;>
    simp only [step, reduceCtorEq] at h1 h2 h3 <;>
    simp_all [Inv, queryPending]

/-! ## QueryWithContext: the claims -/

/-- C3: when the driver's Query answers (r, err) and the signal has not fired by the
time the caller holds its outcome, that outcome is the driver's answer: (r, nil) when
err is nil, and (nil, err) with err unchanged when it is not. The call does return in
that case: once no goroutine can move the caller has this outcome, and from every
state reached without the signal there is a continuation without it that ends so. -/
theorem QueryWithContext_driver_first (s0 db1 : σ) (r : Option V) (err : Option E)
    (hq : d.Query query args s0 = some ((r, err), db1))
    (evs : List Event) (s : State σ V E)
    (hrun : run d ctx query args evs (init ctx s0) = some s)
    (hdone : s.done = false) :
    (∀ out, s.caller.outcome = some out →
      out = delivered r err) ∧
    (quiescent d ctx query args s = true →
      s.caller.outcome = some (delivered r err)) ∧
    (∃ evs2 s2, Event.ctxFire ∉ evs2 ∧ run d ctx query args evs2 s = some s2 ∧
      s2.done = false ∧
      s2.caller.outcome = some (delivered r err)) := by
  have safe : ∀ t : State σ V E, Inv d ctx query args s0 t → t.done = false →
      ∀ out, t.caller.outcome = some out →
        out = delivered r err := by
    intro t hinv hd out hout
    rcases outcome_cases d ctx query args s0 t hinv out hout with
      ⟨-, hd1, -⟩ | ⟨-, r1, e1, h1, rfl⟩ | ⟨-, r1, h1, rfl⟩
    · simp [hd] at hd1
    · simp only [hq, Option.some.injEq, Prod.mk.injEq] at h1
      obtain ⟨⟨-, rfl⟩, -⟩ := h1
      rfl
    · simp only [hq, Option.some.injEq, Prod.mk.injEq] at h1
      obtain ⟨⟨rfl, rfl⟩, -⟩ := h1
      rfl
  have quiet : ∀ t : State σ V E, Inv d ctx query args s0 t → t.done = false →
      quiescent d ctx query args t = true →
        t.caller.outcome = some (delivered r err) := by
    intro t hinv hd hqt
    have hsome := quiescent_returned d ctx query args s0 t hinv hqt (Or.inr (by simp [hq]))
    obtain ⟨out, hout⟩ := Option.isSome_iff_exists.mp hsome
    rw [hout, safe t hinv hd out hout]
  have hinv := reachable_inv d ctx query args s0 evs s hrun
  refine ⟨safe s hinv hdone, quiet s hinv hdone, ?_⟩
  obtain ⟨evs2, s2, hmem, hrun2, hq2, hd2⟩ :=
    exists_quiescent d ctx query args s0 (remaining s) s hinv (le_refl _)
  refine ⟨evs2, s2, ?_, hrun2, hd2.trans hdone, ?_⟩
  · intro hc
    have := hmem _ hc
    simp [programEvents] at this
  · exact quiet s2 (inv_run d ctx query args s0 evs2 s s2 hinv hrun2) (hd2.trans hdone) hq2

/-- C4, as the code behaves: when the signal has fired and the caller's select
resolves while the driver's Query has not yet answered, the select can take the
signal's case, that is the only case it can take, and the caller's outcome is
(nil, ctx.Err()) and stays so whatever happens afterwards, the driver answering
late or never. -/
theorem QueryWithContext_deadline_first (s : State σ V E)
    (hdone : s.done = true) (hsel : s.caller = Caller.atSelect)
    (hpend : queryPending s.bg = true) :
    (∃ s1, step d ctx query args Event.selectDone s = some s1 ∧
      s1.caller.outcome = some (none, some ctx.Err)) ∧
    (∀ ev s1, step d ctx query args ev s = some s1 →
      s1.caller = Caller.atSelect ∨ s1.caller.outcome = some (none, some ctx.Err)) ∧
    (∀ s1 evs2 s2, step d ctx query args Event.selectDone s = some s1 →
      run d ctx query args evs2 s1 = some s2 →
      s2.caller.outcome = some (none, some ctx.Err)) := by
  obtain ⟨caller, bg, started, done, db, calls⟩ := s
  simp only at hdone hsel hpend
  subst hdone hsel
  refine ⟨⟨⟨Caller.ret77 ctx.Err, bg, started, true, db, calls⟩, by simp [step], rfl⟩, ?_, ?_⟩
  · intro ev s1 h
    cases ev <;> rcases bg with _ | (_ | _ | _ | _ | _) <;>
      simp only [queryPending, reduceCtorEq] at hpend <;>
      simp only [step, reduceCtorEq] at h <;>
      (try split at h) <;>
      (try simp only [Option.some.injEq, reduceCtorEq] at h) <;>
      (try subst h) <;>
      simp_all [Caller.outcome]
  · intro s1 evs2 s2 h1 h2
    simp only [step, if_true, Option.some.injEq] at h1
    subst h1
    have := run_returned d ctx query args evs2
      ⟨Caller.ret77 ctx.Err, bg, started, true, db, calls⟩ s2 (none, some ctx.Err) rfl h2
    rw [this]
    rfl

/-- C6: in every state that one invocation reaches, a caller that has returned is in
exactly one terminal state and holds one outcome: Cancelled with (nil, ctx.Err()), or
Completed with the driver's error as (nil, err), or Completed with the driver's
result as (r, nil); result and error are never both non-nil; no later event changes
what the caller holds. Runs have at most five events, and when the signal has fired
or the driver answers, the caller has returned once no goroutine can move, and such a
state can be reached. -/
theorem QueryWithContext_one_outcome (s0 : σ) (evs : List Event) (s : State σ V E)
    (hrun : run d ctx query args evs (init ctx s0) = some s) :
    evs.length ≤ 5 ∧
    (∀ out, s.caller.outcome = some out →
      ((s.caller.terminal = some Terminal.Cancelled ∧ s.done = true ∧
          out = (none, some ctx.Err)) ∨
        (s.caller.terminal = some Terminal.Completed ∧
          ∃ r e, d.Query query args s0 = some ((r, some e), s.db) ∧ out = (none, some e)) ∨
        (s.caller.terminal = some Terminal.Completed ∧
          ∃ r, d.Query query args s0 = some ((r, none), s.db) ∧ out = (r, none))) ∧
      (out.1 = none ∨ out.2 = none) ∧
      (∀ evs2 s2, run d ctx query args evs2 s = some s2 → s2.caller = s.caller)) ∧
    s.caller.terminal.isSome = s.caller.outcome.isSome ∧
    (s.done = true ∨ (d.Query query args s0).isSome = true →
      (quiescent d ctx query args s = true → s.caller.outcome.isSome = true) ∧
      (∃ evs2 s2, run d ctx query args evs2 s = some s2 ∧
        s2.caller.outcome.isSome = true)) := by
  have hinv := reachable_inv d ctx query args s0 evs s hrun
  refine ⟨run_length_le d ctx query args s0 evs s hrun, ?_, ?_, ?_⟩
  · intro out hout
    have hc := outcome_cases d ctx query args s0 s hinv out hout
    refine ⟨hc, ?_, fun evs2 s2 h2 => run_returned d ctx query args evs2 s s2 out hout h2⟩
    rcases hc with ⟨-, -, rfl⟩ | ⟨-, _, _, -, rfl⟩ | ⟨-, _, -, rfl⟩ <;> simp
  · cases h : s.caller <;> rfl
  · intro h
    refine ⟨fun hq => quiescent_returned d ctx query args s0 s hinv hq h, ?_⟩
    obtain ⟨evs2, s2, -, hrun2, hq2, hd2⟩ :=
      exists_quiescent d ctx query args s0 (remaining s) s hinv (le_refl _)
    refine ⟨evs2, s2, hrun2, ?_⟩
    exact quiescent_returned d ctx query args s0 s2
      (inv_run d ctx query args s0 evs2 s s2 hinv hrun2) hq2 (hd2 ▸ h)

/-- C10: whatever the signal's state at entry, one invocation starts one background
goroutine and that goroutine applies the driver's Query once, to the caller's statement
and variables. In every reachable state at most one goroutine has been started, exactly
one once the caller is past the go statement; the calls made are none or that single
Query; a call in flight carries the caller's statement and variables; and the driver's
state is the initial one while the query is pending and afterwards the state that one
application of Query to the caller's statement and variables in the initial state
leaves. Once no goroutine can move, the goroutine has been started and the call made,
a driver that answers is in the state that this one application leaves, on the
cancelled path as on the others, and a driver that does not answer still holds the
call; such a state can be reached. Over a recording driver, the log the driver itself
keeps is empty or that one call, and is that one call once no goroutine can move. -/
theorem QueryWithContext_one_dispatch (s0 : σ) (evs : List Event) (s : State σ V E)
    (hrun : run d ctx query args evs (init ctx s0) = some s) :
    s.started ≤ 1 ∧
    (s.caller ≠ Caller.entry → s.started = 1 ∧ s.bg.isSome = true) ∧
    (s.calls = [] ∨ s.calls = [Call.Query query args]) ∧
    (∀ sql vars, s.bg = some (Goroutine.inQuery sql vars) → sql = query ∧ vars = args) ∧
    ((queryPending s.bg = true ∧ s.db = s0) ∨
      (queryPending s.bg = false ∧ ∃ out, d.Query query args s0 = some (out, s.db))) ∧
    (quiescent d ctx query args s = true →
      s.started = 1 ∧ s.calls = [Call.Query query args] ∧
      (∀ out db1, d.Query query args s0 = some (out, db1) →
        s.db = db1 ∧ queryPending s.bg = false) ∧
      (d.Query query args s0 = none →
        s.bg = some (Goroutine.inQuery query args) ∧ s.db = s0)) ∧
    (∃ evs2 s2, run d ctx query args evs2 s = some s2 ∧
      quiescent d ctx query args s2 = true ∧
      s2.started = 1 ∧ s2.calls = [Call.Query query args] ∧
      (∀ out db1, d.Query query args s0 = some (out, db1) → s2.db = db1)) ∧
    (∀ evs3 t, run (recording d) ctx query args evs3 (init ctx (s0, [])) = some t →
      (t.db = (s0, []) ∨
        (t.db.2 = [Call.Query query args] ∧
          ∃ out, d.Query query args s0 = some (out, t.db.1))) ∧
      (quiescent (recording d) ctx query args t = true →
        ∀ out db1, d.Query query args s0 = some (out, db1) →
          t.db = (db1, [Call.Query query args]))) := by
  have hinv := reachable_inv d ctx query args s0 evs s hrun
  obtain ⟨h1, h2, h3⟩ := inv_dispatch d ctx query args s0 s hinv
  obtain ⟨h4, h5⟩ := inv_driver d ctx query args s0 s hinv
  refine ⟨h1, h2, h3, h4, h5, ?_, ?_, ?_⟩
  · intro hq
    obtain ⟨q1, q2⟩ := quiescent_dispatched d ctx query args s0 s hinv hq
    obtain ⟨q3, q4⟩ := quiescent_driver d ctx query args s0 s hinv hq
    exact ⟨q1, q2, q3, q4⟩
  · obtain ⟨evs2, s2, -, hrun2, hq2, -⟩ :=
      exists_quiescent d ctx query args s0 (remaining s) s hinv (le_refl _)
    have hinv2 := inv_run d ctx query args s0 evs2 s s2 hinv hrun2
    obtain ⟨q1, q2⟩ := quiescent_dispatched d ctx query args s0 s2 hinv2 hq2
    exact ⟨evs2, s2, hrun2, hq2, q1, q2, fun out db1 hQ =>
      ((quiescent_driver d ctx query args s0 s2 hinv2 hq2).1 out db1 hQ).1⟩
  · intro evs3 t hrun3
    have hinv3 := reachable_inv (recording d) ctx query args (s0, []) evs3 t hrun3
    refine ⟨?_, ?_⟩
    · rcases (inv_driver (recording d) ctx query args (s0, []) t hinv3).2 with
        ⟨-, h⟩ | ⟨-, out, h⟩
      · exact Or.inl h
      · right
        simp only [recording, Option.map_eq_some', List.nil_append, Prod.mk.injEq] at h
        obtain ⟨a, ha, -, hb⟩ := h
        rw [← hb]
        exact ⟨rfl, a.1, ha⟩
    · intro hq out db1 hQ
      exact ((quiescent_driver (recording d) ctx query args (s0, []) t hinv3 hq).1 out
        (db1, [Call.Query query args]) (by simp [recording, hQ])).1

end Machine

/-! ## QueryWithContext: concrete runs -/

/-- C3 at a driver that answers 7 and a signal that does not fire: the caller
receives (7, nil). -/
theorem QueryWithContext_driver_first_witness :
    answeringDriver.Query demoQuery demoArgs 0 = some ((some 7, none), 1) ∧
    run answeringDriver demoCtx demoQuery demoArgs
      [Event.go, Event.callQuery, Event.queryReturn, Event.selectRc] (init demoCtx 0)
      = some completedState ∧
    completedState.done = false ∧
    ((∀ out, completedState.caller.outcome = some out → out = delivered (some 7) none) ∧
      (quiescent answeringDriver demoCtx demoQuery demoArgs completedState = true →
        completedState.caller.outcome = some (delivered (some 7) none)) ∧
      (∃ evs2 s2, Event.ctxFire ∉ evs2 ∧
        run answeringDriver demoCtx demoQuery demoArgs evs2 completedState = some s2 ∧
        s2.done = false ∧ s2.caller.outcome = some (delivered (some 7) none))) :=
  ⟨rfl, rfl, rfl,
    QueryWithContext_driver_first answeringDriver demoCtx demoQuery demoArgs 0 1 (some 7) none
      rfl [Event.go, Event.callQuery, Event.queryReturn, Event.selectRc] completedState rfl rfl⟩

/-- C4 fails on the code: the signal fires before the driver's Query has even been
called, the driver then answers 7, and the select, with both cases ready, takes the
result: the caller receives (7, nil), not the cancellation. The same happens with a
context that had fired before the call. -/
theorem QueryWithContext_deadline_first_counterexample :
    firedBeforeResponse demoCtx
      [Event.ctxFire, Event.go, Event.callQuery, Event.queryReturn, Event.selectRc] = true ∧
    (run answeringDriver demoCtx demoQuery demoArgs
      [Event.ctxFire, Event.go, Event.callQuery, Event.queryReturn, Event.selectRc]
      (init demoCtx 0)).map (fun s => (s.done, s.caller.outcome))
      = some (true, some (some 7, none)) ∧
    firedBeforeResponse firedCtx
      [Event.go, Event.callQuery, Event.queryReturn, Event.selectRc] = true ∧
    (run answeringDriver firedCtx demoQuery demoArgs
      [Event.go, Event.callQuery, Event.queryReturn, Event.selectRc]
      (init firedCtx 0)).map (fun s => (s.done, s.caller.outcome))
      = some (true, some (some 7, none)) ∧
    ((some 7, none) : Option Nat × Option DemoErr) ≠ (none, some demoCtx.Err) := by
  refine ⟨rfl, rfl, rfl, rfl, by decide⟩

/-- C4 as amended, at a state where the signal has fired, the caller waits in its
select and the query is in flight. -/
theorem QueryWithContext_deadline_first_witness :
    run answeringDriver demoCtx demoQuery demoArgs
      [Event.go, Event.callQuery, Event.ctxFire] (init demoCtx 0) = some waitingState ∧
    waitingState.done = true ∧ waitingState.caller = Caller.atSelect ∧
    queryPending waitingState.bg = true ∧
    ((∃ s1, step answeringDriver demoCtx demoQuery demoArgs Event.selectDone waitingState
        = some s1 ∧ s1.caller.outcome = some (none, some demoCtx.Err)) ∧
      (∀ ev s1, step answeringDriver demoCtx demoQuery demoArgs ev waitingState = some s1 →
        s1.caller = Caller.atSelect ∨ s1.caller.outcome = some (none, some demoCtx.Err)) ∧
      (∀ s1 evs2 s2,
        step answeringDriver demoCtx demoQuery demoArgs Event.selectDone waitingState
          = some s1 →
        run answeringDriver demoCtx demoQuery demoArgs evs2 s1 = some s2 →
        s2.caller.outcome = some (none, some demoCtx.Err))) :=
  ⟨rfl, rfl, rfl, rfl,
    QueryWithContext_deadline_first answeringDriver demoCtx demoQuery demoArgs waitingState
      rfl rfl rfl⟩

/-- C5 on the code: the signal fires while the query is in flight, the caller returns
the cancellation, the driver then answers 7. The background goroutine is at its send
on the unbuffered result channel, the caller has left the select, and no event is
possible any more: the goroutine stays blocked on that send. -/
theorem QueryWithContext_goroutine_leak :
    run answeringDriver demoCtx demoQuery demoArgs
      [Event.go, Event.callQuery, Event.ctxFire, Event.selectDone, Event.queryReturn]
      (init demoCtx 0) = some leakedState ∧
    leakedState.caller.outcome = some (none, some DemoErr.deadlineExceeded) ∧
    leakedState.bg = some (Goroutine.sendRc (some 7)) ∧
    blockedOnSend leakedState.bg = true ∧
    stuck answeringDriver demoCtx demoQuery demoArgs leakedState = true ∧
    (∀ ev, step answeringDriver demoCtx demoQuery demoArgs ev leakedState = none) := by
  refine ⟨rfl, rfl, rfl, rfl, rfl, ?_⟩
  intro ev
  cases ev <;> rfl

/-- C6 at the run in which the driver answers 7 before any signal. -/
theorem QueryWithContext_one_outcome_witness :
    run answeringDriver demoCtx demoQuery demoArgs
      [Event.go, Event.callQuery, Event.queryReturn, Event.selectRc] (init demoCtx 0)
      = some completedState ∧
    completedState.caller.terminal = some Terminal.Completed ∧
    completedState.caller.outcome = some (some 7, none) ∧
    ([Event.go, Event.callQuery, Event.queryReturn, Event.selectRc].length ≤ 5 ∧
      (∀ out, completedState.caller.outcome = some out →
        ((completedState.caller.terminal = some Terminal.Cancelled ∧
            completedState.done = true ∧ out = (none, some demoCtx.Err)) ∨
          (completedState.caller.terminal = some Terminal.Completed ∧
            ∃ r e, answeringDriver.Query demoQuery demoArgs 0
              = some ((r, some e), completedState.db) ∧ out = (none, some e)) ∨
          (completedState.caller.terminal = some Terminal.Completed ∧
            ∃ r, answeringDriver.Query demoQuery demoArgs 0
              = some ((r, none), completedState.db) ∧ out = (r, none))) ∧
        (out.1 = none ∨ out.2 = none) ∧
        (∀ evs2 s2, run answeringDriver demoCtx demoQuery demoArgs evs2 completedState
          = some s2 → s2.caller = completedState.caller)) ∧
      completedState.caller.terminal.isSome = completedState.caller.outcome.isSome ∧
      (completedState.done = true ∨
          (answeringDriver.Query demoQuery demoArgs 0).isSome = true →
        (quiescent answeringDriver demoCtx demoQuery demoArgs completedState = true →
          completedState.caller.outcome.isSome = true) ∧
        (∃ evs2 s2, run answeringDriver demoCtx demoQuery demoArgs evs2 completedState
          = some s2 ∧ s2.caller.outcome.isSome = true))) :=
  ⟨rfl, rfl, rfl,
    QueryWithContext_one_outcome answeringDriver demoCtx demoQuery demoArgs 0
      [Event.go, Event.callQuery, Event.queryReturn, Event.selectRc] completedState rfl⟩

/-- C10 at a context that had fired before the call: the caller returns the
cancellation at once, and the goroutine still asks the driver the one query, with the
caller's statement and variables; the driver's state and the recording driver's log
show that one application. -/
theorem QueryWithContext_one_dispatch_witness :
    firedCtx.fired = true ∧
    run answeringDriver firedCtx demoQuery demoArgs
      [Event.go, Event.selectDone, Event.callQuery, Event.queryReturn] (init firedCtx 0)
      = some dispatchedState ∧
    run (recording answeringDriver) firedCtx demoQuery demoArgs
      [Event.go, Event.selectDone, Event.callQuery, Event.queryReturn]
      (init firedCtx (0, [])) = some recordedState ∧
    answeringDriver.Query demoQuery demoArgs 0 = some ((some 7, none), dispatchedState.db) ∧
    (dispatchedState.started ≤ 1 ∧
      (dispatchedState.caller ≠ Caller.entry →
        dispatchedState.started = 1 ∧ dispatchedState.bg.isSome = true) ∧
      (dispatchedState.calls = [] ∨ dispatchedState.calls = [Call.Query demoQuery demoArgs]) ∧
      (∀ sql vars, dispatchedState.bg = some (Goroutine.inQuery sql vars) →
        sql = demoQuery ∧ vars = demoArgs) ∧
      ((queryPending dispatchedState.bg = true ∧ dispatchedState.db = 0) ∨
        (queryPending dispatchedState.bg = false ∧
          ∃ out, answeringDriver.Query demoQuery demoArgs 0
            = some (out, dispatchedState.db))) ∧
      (quiescent answeringDriver firedCtx demoQuery demoArgs dispatchedState = true →
        dispatchedState.started = 1 ∧
        dispatchedState.calls = [Call.Query demoQuery demoArgs] ∧
        (∀ out db1, answeringDriver.Query demoQuery demoArgs 0 = some (out, db1) →
          dispatchedState.db = db1 ∧ queryPending dispatchedState.bg = false) ∧
        (answeringDriver.Query demoQuery demoArgs 0 = none →
          dispatchedState.bg = some (Goroutine.inQuery demoQuery demoArgs) ∧
          dispatchedState.db = 0)) ∧
      (∃ evs2 s2, run answeringDriver firedCtx demoQuery demoArgs evs2 dispatchedState
          = some s2 ∧
        quiescent answeringDriver firedCtx demoQuery demoArgs s2 = true ∧
        s2.started = 1 ∧ s2.calls = [Call.Query demoQuery demoArgs] ∧
        (∀ out db1, answeringDriver.Query demoQuery demoArgs 0 = some (out, db1) →
          s2.db = db1)) ∧
      (∀ evs3 t, run (recording answeringDriver) firedCtx demoQuery demoArgs evs3
          (init firedCtx (0, [])) = some t →
        (t.db = (0, []) ∨
          (t.db.2 = [Call.Query demoQuery demoArgs] ∧
            ∃ out, answeringDriver.Query demoQuery demoArgs 0 = some (out, t.db.1))) ∧
        (quiescent (recording answeringDriver) firedCtx demoQuery demoArgs t = true →
          ∀ out db1, answeringDriver.Query demoQuery demoArgs 0 = some (out, db1) →
            t.db = (db1, [Call.Query demoQuery demoArgs])))) :=
  ⟨rfl, rfl, rfl, rfl,
    QueryWithContext_one_dispatch answeringDriver firedCtx demoQuery demoArgs 0
      [Event.go, Event.selectDone, Event.callQuery, Event.queryReturn] dispatchedState rfl⟩

end Client
